import Mathlib

/-!
Shallow embedding of `src/main.py` (a FastAPI/CLI wrapper around an external
research collaborator) for checking the specification claims.

Python `datetime` values are modelled by the structure `DT`: wall-clock
calendar fields together with a UTC offset in minutes.  Calendar arithmetic
uses the standard proleptic-Gregorian civil-from-days / days-from-civil
algorithms on `Int`.  The `zoneinfo` database entry `America/New_York` is
modelled by the post-2007 United States DST rule (second Sunday of March
02:00 local to first Sunday of November 02:00 local, EDT = UTC-4, EST =
UTC-5), which is the rule in effect for every concrete instant appearing in
the claims.  The external collaborator `GPTResearcher` is modelled as a pair
of result-valued functions of the query it was constructed from, and a raised
exception is modelled by `Except.error`.
-/

set_option maxRecDepth 10000

namespace TTG

/-- Proleptic Gregorian leap-year rule (as used by Python `datetime`). -/
def isLeapYear (y : Int) : Bool :=
  y % 4 == 0 && (y % 100 != 0 || y % 400 == 0)

/-- Number of days in a month of a given year. -/
def daysInMonth (y m : Int) : Int :=
  if m == 2 then (if isLeapYear y then 29 else 28)
  else if m == 4 || m == 6 || m == 9 || m == 11 then 30
  else 31

/-- Days since the Unix epoch (1970-01-01) of a civil date. -/
def daysFromCivil (y m d : Int) : Int :=
  let y2 : Int := if m ≤ 2 then y - 1 else y
  let era : Int := y2.ediv 400
  let yoe : Int := y2 - era * 400
  let mp : Int := (m + 9).emod 12
  let doy : Int := (153 * mp + 2).ediv 5 + d - 1
  let doe : Int := yoe * 365 + yoe.ediv 4 - yoe.ediv 100 + doy
  era * 146097 + doe - 719468

/-- Civil date (year, month, day) of a count of days since the Unix epoch. -/
def civilFromDays (z : Int) : Int × Int × Int :=
  let z2 : Int := z + 719468
  let era : Int := z2.ediv 146097
  let doe : Int := z2 - era * 146097
  let yoe : Int := (doe - doe.ediv 1460 + doe.ediv 36524 - doe.ediv 146096).ediv 365
  let y : Int := yoe + era * 400
  let doy : Int := doe - (365 * yoe + yoe.ediv 4 - yoe.ediv 100)
  let mp : Int := (5 * doy + 2).ediv 153
  let d : Int := doy - (153 * mp + 2).ediv 5 + 1
  let m : Int := mp + (if mp < 10 then 3 else -9)
  (if m ≤ 2 then y + 1 else y, m, d)

/-- An aware Python `datetime`: wall-clock fields plus a UTC offset in
minutes (the value of `utcoffset()` of its `tzinfo`). -/
structure DT where
  year : Int
  month : Int
  day : Int
  hour : Int
  minute : Int
  second : Int
  usec : Int
  offset : Int
  deriving DecidableEq, Repr

/-- Wall-clock seconds since the epoch (ignoring the offset). -/
def DT.wallSeconds (d : DT) : Int :=
  daysFromCivil d.year d.month d.day * 86400 + d.hour * 3600 + d.minute * 60 + d.second

/-- The instant denoted by an aware datetime, in seconds since the epoch. -/
def DT.instantSeconds (d : DT) : Int :=
  d.wallSeconds - d.offset * 60

/-- The instant in microseconds; aware datetimes compare by this value. -/
def DT.instantUsec (d : DT) : Int :=
  d.instantSeconds * 1000000 + d.usec

/-- Day of week of an epoch-day count, with 0 = Sunday (day 0 was a Thursday). -/
def dayOfWeek (d : Int) : Int := (d + 4).emod 7

/-- The first Sunday on or after a given epoch day. -/
def firstSundayOnOrAfter (d : Int) : Int :=
  d + (7 - dayOfWeek d).emod 7

/-- Instant (seconds since epoch, UTC) at which DST starts in a year:
second Sunday of March, 02:00 EST = 07:00 UTC. -/
def dstStartUtc (y : Int) : Int :=
  (firstSundayOnOrAfter (daysFromCivil y 3 1) + 7) * 86400 + 7 * 3600

/-- Instant (seconds since epoch, UTC) at which DST ends in a year:
first Sunday of November, 02:00 EDT = 06:00 UTC. -/
def dstEndUtc (y : Int) : Int :=
  firstSundayOnOrAfter (daysFromCivil y 11 1) * 86400 + 6 * 3600

/-- `America/New_York` UTC offset in minutes at a given instant
(post-2007 rule: EDT = -240 during DST, EST = -300 otherwise). -/
def nyOffsetAtInstant (t : Int) : Int :=
  let y := (civilFromDays (t.ediv 86400)).1
  if dstStartUtc y ≤ t ∧ t < dstEndUtc y then -240 else -300

/-- `America/New_York` UTC offset in minutes for a wall-clock time
(seconds since epoch read as local wall time), with `fold = 0`: the
skipped hour maps to EST, the repeated hour to EDT, so DST wall-clock
bounds are 03:00 on the second Sunday of March and 02:00 on the first
Sunday of November. -/
def nyOffsetAtWall (w : Int) : Int :=
  let y := (civilFromDays (w.ediv 86400)).1
  let startWall := (firstSundayOnOrAfter (daysFromCivil y 3 1) + 7) * 86400 + 3 * 3600
  let endWall := firstSundayOnOrAfter (daysFromCivil y 11 1) * 86400 + 2 * 3600
  if startWall ≤ w ∧ w < endWall then -240 else -300

/-- Rebuild an aware datetime from an instant and a chosen offset
(the wall-clock fields are instant + offset). -/
def dtFromInstant (tSec usec offset : Int) : DT :=
  let w := tSec + offset * 60
  let days := w.ediv 86400
  let rem := w.emod 86400
  let c := civilFromDays days
  ⟨c.1, c.2.1, c.2.2, rem.ediv 3600, (rem.emod 3600).ediv 60, rem.emod 60, usec, offset⟩

/-- `d.astimezone(ZoneInfo("America/New_York"))`: same instant, fields
re-rendered in the New York offset at that instant. -/
def astimezoneNY (d : DT) : DT :=
  let t := d.instantSeconds
  dtFromInstant t d.usec (nyOffsetAtInstant t)

/-- `d - timedelta(days = n)` on a `ZoneInfo("America/New_York")` aware
datetime: Python subtracts on the wall clock and the zone recomputes the
offset from the new wall time (`fold = 0`). -/
def subDays (d : DT) (n : Int) : DT :=
  let days := daysFromCivil d.year d.month d.day - n
  let c := civilFromDays days
  let wallS := days * 86400 + d.hour * 3600 + d.minute * 60 + d.second
  { d with year := c.1, month := c.2.1, day := c.2.2, offset := nyOffsetAtWall wallS }

/-- Read exactly `n` ASCII digits, returning the accumulated value and the
rest of the input. -/
def readDigits : Nat → Int → List Char → Option (Int × List Char)
  | 0, acc, cs => some (acc, cs)
  | n + 1, acc, c :: cs =>
      if c.isDigit then readDigits n (acc * 10 + ((c.toNat : Int) - 48)) cs else none
  | _ + 1, _, [] => none

/-- Consume one expected character. -/
def expectChar (ch : Char) : List Char → Option (List Char)
  | c :: cs => if c = ch then some cs else none
  | [] => none

/-- Result of `datetime.fromisoformat`: wall-clock fields plus the parsed
UTC offset in minutes (`none` for a naive result). -/
structure NaiveDT where
  year : Int
  month : Int
  day : Int
  hour : Int
  minute : Int
  second : Int
  usec : Int
  tz : Option Int
  deriving DecidableEq, Repr

/-- Value in microseconds of a parsed fraction of 1-6 digits. -/
def fracValue (ds : List Char) : Int :=
  (ds.foldl (fun a c => a * 10 + ((c.toNat : Int) - 48)) 0) * ((10 : Int) ^ (6 - ds.length))

/-- Parse the optional UTC-offset suffix (sign, HH, colon, MM), which must
end the input; returns the offset in minutes. -/
def parseTzSuffix : List Char → Option (Option Int)
  | [] => some none
  | c :: cs =>
    if c = '+' || c = '-' then
      match readDigits 2 0 cs with
      | some (oh, cs2) =>
        match expectChar ':' cs2 with
        | some cs3 =>
          match readDigits 2 0 cs3 with
          | some (om, []) =>
            if oh ≤ 23 && om ≤ 59 then
              some (some ((if c = '-' then -1 else 1) * (oh * 60 + om)))
            else none
          | _ => none
        | none => none
      | none => none
    else none

/-- Parse `HH[:MM[:SS[.ffffff]]]` followed by an optional offset suffix;
the whole input must be consumed. -/
def parseTimePart (cs : List Char) : Option (Int × Int × Int × Int × Option Int) := do
  let (h, cs0) ← readDigits 2 0 cs
  match cs0 with
  | ':' :: cs1 => do
    let (mi, cs2) ← readDigits 2 0 cs1
    match cs2 with
    | ':' :: cs3 => do
      let (s, cs4) ← readDigits 2 0 cs3
      match cs4 with
      | '.' :: cs5 =>
        let ds := cs5.takeWhile Char.isDigit
        if ds.length = 0 || 6 < ds.length then none
        else do
          let tz ← parseTzSuffix (cs5.drop ds.length)
          some (h, mi, s, fracValue ds, tz)
      | _ => do
        let tz ← parseTzSuffix cs4
        some (h, mi, s, 0, tz)
    | _ => do
      let tz ← parseTzSuffix cs2
      some (h, mi, 0, 0, tz)
  | _ => do
    let tz ← parseTzSuffix cs0
    some (h, 0, 0, 0, tz)

/-- Model of `datetime.fromisoformat` on the colon-separated dialect:
`YYYY-MM-DD`, optionally followed by a single separator character, a time
`HH[:MM[:SS[.fraction]]]` with a fraction of one to six digits, and an
offset `±HH:MM`.  Returns `none` on any malformed or out-of-range
component (modelling the raised `ValueError`). -/
def fromisoformat (str : String) : Option NaiveDT := do
  let cs := str.data
  let (y, cs1) ← readDigits 4 0 cs
  let cs2 ← expectChar '-' cs1
  let (mo, cs3) ← readDigits 2 0 cs2
  let cs4 ← expectChar '-' cs3
  let (d, cs5) ← readDigits 2 0 cs4
  if y < 1 || mo < 1 || 12 < mo || d < 1 || daysInMonth y mo < d then none
  else
    match cs5 with
    | [] => some ⟨y, mo, d, 0, 0, 0, 0, none⟩
    | _ :: rest => do
      let (h, mi, s, us, tz) ← parseTimePart rest
      if 23 < h || 59 < mi || 59 < s then none
      else some ⟨y, mo, d, h, mi, s, us, tz⟩

/-- Python `value.rstrip("Z")`: remove every trailing `Z`. -/
def rstripZ (s : String) : String :=
  String.mk ((s.data.reverse.dropWhile (fun c => c = 'Z')).reverse)

/-- The `Query.parse_date` validator body for string input: strip trailing
`Z`, parse with `fromisoformat`, force the result to be read as UTC
(`replace(tzinfo=ZoneInfo("UTC"))` keeps the wall clock and discards any
parsed offset), and convert with `astimezone` to `America/New_York`.
`none` models the raised `ValueError("Invalid date format")`. -/
def parse_date (s : String) : Option DT :=
  (fromisoformat (rstripZ s)).map fun p =>
    astimezoneNY ⟨p.year, p.month, p.day, p.hour, p.minute, p.second, p.usec, 0⟩

/-- Zero-pad a nonnegative integer to a given width. -/
def padNum (w : Nat) (n : Int) : String :=
  let s := toString n.toNat
  String.mk (List.replicate (w - s.length) '0') ++ s

/-- Python `d.strftime("%Y-%m-%d")`. -/
def strftime_Ymd (d : DT) : String :=
  padNum 4 d.year ++ "-" ++ padNum 2 d.month ++ "-" ++ padNum 2 d.day

/-- ISO rendering `±HH:MM` of a UTC offset in minutes. -/
def offsetIso (off : Int) : String :=
  let a := if off < 0 then -off else off
  (if off < 0 then "-" else "+") ++ padNum 2 (a.ediv 60) ++ ":" ++ padNum 2 (a.emod 60)

/-- Python `d.isoformat()` of an aware datetime (the microsecond part is
printed only when nonzero). -/
def isoformat (d : DT) : String :=
  padNum 4 d.year ++ "-" ++ padNum 2 d.month ++ "-" ++ padNum 2 d.day ++ "T" ++
    padNum 2 d.hour ++ ":" ++ padNum 2 d.minute ++ ":" ++ padNum 2 d.second ++
    (if d.usec = 0 then "" else "." ++ padNum 6 d.usec) ++ offsetIso d.offset

/-- Does `pat` occur at the head of the second list? -/
def headMatches : List Char → List Char → Bool
  | [], _ => true
  | _ :: _, [] => false
  | a :: as, b :: bs => a == b && headMatches as bs

/-- Does `pat` occur anywhere in the second list? -/
def listContains (pat : List Char) : List Char → Bool
  | [] => pat.isEmpty
  | b :: bs => headMatches pat (b :: bs) || listContains pat bs

/-- Does the string `hay` contain `pat` as a substring? -/
def strContains (hay pat : String) : Bool := listContains pat.data hay.data

/-- The `date_must_be_in_past` validator: reject a value later than
`datetime.now(ZoneInfo("America/New_York"))`, here the parameter `now`. -/
def date_must_be_in_past (now v : DT) : Except String DT :=
  if now.instantUsec < v.instantUsec then .error "Date must be in the past or present"
  else .ok v

/-- The `dates_must_be_within_range` validator: reject a value earlier than
`now - timedelta(days = 365 * 10)` (3650 days, per the source). -/
def dates_must_be_within_range (now v : DT) : Except String DT :=
  if v.instantUsec < (subDays now 3650).instantUsec then
    .error "Date must not be more than 10 years in the past"
  else .ok v

/-- Both value validators of the `Query` model, in declaration order. -/
def validate_date (now v : DT) : Except String DT :=
  match date_must_be_in_past now v with
  | .error e => .error e
  | .ok v1 => dates_must_be_within_range now v1

/-- The validated `Query` pydantic model of the source. -/
structure Query where
  query : String
  report_type : String
  start_date : DT
  end_date : DT
  sources : List String
  deriving Repr

/-- A raw JSON body for `POST /research`; `none` marks an absent field. -/
structure Payload where
  query : String
  report_type : Option String
  start_date : Option String
  end_date : Option String
  sources : Option (List String)

/-- Pydantic processing of one date field of the `Query` model: the field
is required (no default in the source), then `parse_date` runs as a
`pre` validator on the string, then the two value validators run. -/
def parseDateField (now : DT) (s? : Option String) : Except String DT :=
  match s? with
  | none => .error "field required"
  | some s =>
    match parse_date s with
    | none => .error "Invalid date format"
    | some d => validate_date now d

/-- Pydantic validation of a `POST /research` JSON body against the `Query`
model (`now` stands for `datetime.now(ZoneInfo("America/New_York"))` at
validation time). -/
def queryOfPayload (now : DT) (p : Payload) : Except String Query := do
  let sd ← parseDateField now p.start_date
  let ed ← parseDateField now p.end_date
  pure ⟨p.query, p.report_type.getD "research_report", sd, ed, p.sources.getD []⟩

/-- The external collaborator `GPTResearcher`, as a pair of result-valued
operations of the query and report type the object was constructed from
(`config_path=None` is fixed); `Except.error` models a raised exception. -/
structure Collaborator where
  conduct_research : String → String → Except String Unit
  write_report : String → String → Except String String

/-- The `date_restriction` f-string of `fetch_report`. -/
def date_restriction (s e : String) : String :=
  "IMPORTANT: Only use information from articles and content published between "
    ++ s ++ " and " ++ e
    ++ " (inclusive). Disregard any information outside this date range, even if it seems relevant. If an article\x27s publication date is not clear, do not use it."

/-- The `contextualized_query` f-string of `fetch_report`. -/
def contextualized_query (q s e : String) : String :=
  date_restriction s e ++ "\n\nQuery: " ++ q
    ++ "\n\nWhen conducting research and writing the report, continuously verify and mention the publication dates of your sources. Include only information from sources within the specified date range."

/-- The swap at the head of `fetch_report`: exchange the dates when
`start_date > end_date` (aware datetimes compare by instant). -/
def swapDates (sd ed : DT) : DT × DT :=
  if ed.instantUsec < sd.instantUsec then (ed, sd) else (sd, ed)

/-- The `date_range_note` f-string appended to the report. -/
def date_range_note (s e : String) : String :=
  "\n\nNote: This report only contains information from sources published between "
    ++ s ++ " and " ++ e ++ "."

/-- The contextualized query that `fetch_report` hands to the collaborator
constructor, as a function of the raw query and the two dates. -/
def fetch_context (query : String) (sd ed : DT) : String :=
  let p := swapDates sd ed
  contextualized_query query (strftime_Ymd p.1) (strftime_Ymd p.2)

/-- `fetch_report` of the source: swap the dates if needed, render them as
`YYYY-MM-DD`, build the contextualized query, run the collaborator steps
`conduct_research` then `write_report` (no try/except in this revision, so
an error propagates), append the date-range note, and return the report
with the elapsed wall-clock time (modelled by the parameter `elapsed`).
The `sources` parameter is accepted and, as in the source, never used. -/
def fetch_report (c : Collaborator) (query report_type : String)
    (sources : List String) (sd ed : DT) (elapsed : Int) :
    Except String (String × Int) :=
  let p := swapDates sd ed
  let sds := strftime_Ymd p.1
  let eds := strftime_Ymd p.2
  let cq := contextualized_query query sds eds
  match c.conduct_research cq report_type with
  | .error e => .error e
  | .ok _ =>
    match c.write_report cq report_type with
    | .error e => .error e
    | .ok report => .ok (report ++ date_range_note sds eds, elapsed)

/-- An HTTP error response, as raised by `HTTPException` or produced by the
framework for an unhandled exception. -/
structure HTTPError where
  status : Nat
  detail : String
  deriving DecidableEq, Repr

/-- `verify_api_key`: raise 401 when the presented bearer credential is not
equal to the configured `API_KEY` (an absent environment variable is
`none`, which no credential string equals). -/
def verify_api_key (apiKey : Option String) (cred : String) : Except HTTPError String :=
  if some cred ≠ apiKey then .error ⟨401, "Invalid API Key"⟩
  else .ok cred

/-- The `POST /research` endpoint on an already-validated `Query`: the
`verify_api_key` dependency runs before the handler body; an exception
escaping `fetch_report` is rendered by the framework as a 500 response. -/
def research_endpoint (apiKey : Option String) (cred : String)
    (c : Collaborator) (q : Query) (elapsed : Int) :
    Except HTTPError (String × DT × DT × Int) :=
  match verify_api_key apiKey cred with
  | .error e => .error e
  | .ok _ =>
    match fetch_report c q.query q.report_type q.sources q.start_date q.end_date elapsed with
    | .error e => .error ⟨500, e⟩
    | .ok (report, t) => .ok (report, q.start_date, q.end_date, t)

/-- The date-contextualization path of `POST /research` for string dates:
both dates go through `parse_date`, then `fetch_report` builds the
contextualized query handed to the collaborator. -/
def research_context (query ss es : String) : Option String := do
  let sd ← parse_date ss
  let ed ← parse_date es
  pure (fetch_context query sd ed)

/-- The date defaulting of `POST /research_direct`: each absent date falls
back to `Depends(get_current_time_et)`; FastAPI caches a dependency per
request, so both defaults resolve to the same `now`. -/
def research_direct_dates (now : DT) (sd ed : Option DT) : DT × DT :=
  (sd.getD now, ed.getD now)

/-- The two branches of the `__main__` dispatch. -/
inductive MainBranch where
  | server : MainBranch
  | terminal : MainBranch
  deriving DecidableEq, Repr

/-- The `__main__` dispatch of the source: `run_terminal` when
`len(sys.argv) > 1`, else `run_fastapi`; `argv` includes the program name
as its first element, as `sys.argv` does. -/
def main_dispatch (argv : List String) : MainBranch :=
  if argv.length > 1 then .terminal else .server

/-- Whether an argument list (past the program name) contains a positional
argument in the argparse sense, that is one not introduced by a dash. -/
def has_positional_query (args : List String) : Bool :=
  args.any (fun a =>
    match a.data with
    | [] => true
    | c :: _ => !(c == '-'))

/-- Midnight Eastern on 2024-01-01 (EST). -/
def dtJan2024 : DT := ⟨2024, 1, 1, 0, 0, 0, 0, -300⟩

/-- Midnight Eastern on 2024-06-01 (EDT). -/
def dtJun2024 : DT := ⟨2024, 6, 1, 0, 0, 0, 0, -240⟩

/-- A sample current time: noon Eastern on 2026-10-12 (EDT). -/
def dtNow2026 : DT := ⟨2026, 10, 12, 12, 0, 0, 0, -240⟩

/-- A collaborator whose two steps both succeed. -/
def collab_ok : Collaborator :=
  ⟨fun _ _ => .ok (), fun _ _ => .ok "RESEARCH REPORT"⟩

/-- A collaborator whose `conduct_research` step raises. -/
def failing_collab (e : String) : Collaborator :=
  ⟨fun _ _ => .error e, fun _ _ => .ok "unused"⟩

/-- The date-range note appended by `fetch_report` is never empty. -/
theorem date_range_note_ne_empty (w s e : String) : w ++ date_range_note s e ≠ w := by
  intro hEq
  have hl : (w ++ date_range_note s e).length = w.length := congrArg String.length hEq
  rw [String.length_append] at hl
  have h0 : (date_range_note s e).length = 0 := by omega
  unfold date_range_note at h0
  rw [String.length_append, String.length_append, String.length_append,
    String.length_append] at h0
  have h1 : (0 : Nat) <
      ("\n\nNote: This report only contains information from sources published between ").length := by
    decide
  omega

/-- C2 counterexample: on the POST /research input of the claim, when the
collaborator raises in `conduct_research`, `fetch_report` of this revision
returns the error itself; it does not return a fallback report string with
an execution time, so the claim as stated fails on the code. -/
theorem c2_conduct_failure_no_fallback :
    fetch_report (failing_collab "upstream failure") "state of AI funding"
      "research_report" [] dtJan2024 dtJun2024 7 = .error "upstream failure" := rfl

/-- C2 amended: an exception raised by the external collaborator in the
`conduct_research` step propagates out of `fetch_report` unchanged (this
revision has no try/except around the call), so the handler produces no
report and no execution time and the framework renders the failure as a
500 response. -/
theorem c2_conduct_failure_propagates (e : String)
    (w : String → String → Except String String) (q rt : String)
    (srcs : List String) (sd ed : DT) (elapsed : Int) :
    fetch_report ⟨fun _ _ => .error e, w⟩ q rt srcs sd ed elapsed = .error e := rfl

/-- C4 counterexample: a POST /research body with both dates absent is
rejected by the `Query` model (`start_date` is a required field with no
default), so it is not the case that every request surface substitutes the
current time for absent dates. -/
theorem c4_research_rejects_absent_dates :
    queryOfPayload dtNow2026
      { query := "state of AI funding", report_type := none,
        start_date := none, end_date := none, sources := none }
      = .error "field required" := rfl

/-- C4 amended: only the POST /research_direct surface substitutes the
current Eastern time for absent dates; there both absent dates resolve to
the same `now` (the dependency is cached per request), giving a single-day
window whose rendered start and end calendar dates are equal.  POST
/research instead rejects a body with missing dates, and the CLI makes
both date flags required. -/
theorem c4_direct_defaults_single_day (now : DT) :
    research_direct_dates now none none = (now, now) ∧
    strftime_Ymd (research_direct_dates now none none).1
      = strftime_Ymd (research_direct_dates now none none).2 :=
  ⟨rfl, rfl⟩

/-- C5: the two value validators of the strict-validation `Query` model
accept a parsed timestamp unchanged exactly when it lies in the closed
range from `now` minus ten years (365 times 10 days, per the source) up
to `now`, and reject it exactly when it is later than `now` or earlier
than that lower bound. -/
theorem c5_validate_date_iff (now v : DT) :
    validate_date now v = .ok v ↔
      ((subDays now 3650).instantUsec ≤ v.instantUsec ∧
        v.instantUsec ≤ now.instantUsec) := by
  unfold validate_date date_must_be_in_past dates_must_be_within_range
  by_cases h1 : now.instantUsec < v.instantUsec
  · simp only [if_pos h1]
    constructor
    · intro h
      exact absurd h (by simp)
    · intro h
      omega
  · simp only [if_neg h1]
    by_cases h2 : v.instantUsec < (subDays now 3650).instantUsec
    · simp only [if_pos h2]
      constructor
      · intro h
        exact absurd h (by simp)
      · intro h
        omega
    · simp only [if_neg h2]
      constructor
      · intro _
        omega
      · intro _
        trivial

/-- C7: a request whose bearer credential is not exactly the configured
API_KEY secret is rejected by `verify_api_key` with a 401 and detail
"Invalid API Key", for every collaborator, query and elapsed time alike —
so the fetcher is never consulted and the response carries no report. -/
theorem c7_bad_token_rejected (apiKey : Option String) (cred : String)
    (c : Collaborator) (q : Query) (elapsed : Int) (h : some cred ≠ apiKey) :
    research_endpoint apiKey cred c q elapsed = .error ⟨401, "Invalid API Key"⟩ := by
  unfold research_endpoint verify_api_key
  simp only [if_pos h]

/-- C7 witness: a concrete wrong credential against a configured secret
yields exactly the 401 response. -/
theorem c7_bad_token_rejected_witness :
    research_endpoint (some "secret-key") "wrong-key" collab_ok
      ⟨"state of AI funding", "research_report", dtJan2024, dtJun2024, []⟩ 3
      = .error ⟨401, "Invalid API Key"⟩ :=
  c7_bad_token_rejected (some "secret-key") "wrong-key" collab_ok
    ⟨"state of AI funding", "research_report", dtJan2024, dtJun2024, []⟩ 3 (by decide)

/-- C9 counterexample: an invocation with only an option argument and no
positional query still has `len(sys.argv) > 1`, so the code runs the
terminal flow rather than starting the HTTP server, against the claim. -/
theorem c9_flags_only_run_terminal :
    main_dispatch ["main.py", "--port=9000"] = MainBranch.terminal ∧
    has_positional_query ["--port=9000"] = false := by decide

/-- C9 amended: the process starts the HTTP server if and only if no
command-line argument at all is supplied (the dispatch tests only the
argument count); any supplied argument, positional query or not, selects
the terminal flow. -/
theorem c9_server_iff_no_args (argv : List String) :
    main_dispatch argv = MainBranch.server ↔ argv.length ≤ 1 := by
  unfold main_dispatch
  by_cases h : argv.length > 1
  · simp only [if_pos h]
    constructor
    · intro hc
      exact absurd hc (by simp)
    · intro hc
      omega
  · simp only [if_neg h]
    constructor
    · intro _
      omega
    · intro _
      trivial

/-- C1 counterexample: for the POST /research input with query "state of
AI funding", start 2024-01-01T00:00:00Z and end 2024-03-31T00:00:00Z, the
contextualized query handed to the collaborator contains neither
"2024-01-01" nor "2024-03-31": the validator converts both UTC midnights
to US Eastern, which moves them to the previous calendar day before the
YYYY-MM-DD rendering. -/
theorem c1_context_lacks_utc_calendar_dates :
    (research_context "state of AI funding" "2024-01-01T00:00:00Z"
        "2024-03-31T00:00:00Z").map
      (fun ctx => strContains ctx "2024-01-01" || strContains ctx "2024-03-31")
      = some false := by decide

/-- C1 amended: for that input the contextualized query contains the
literal substrings "2023-12-31" and "2024-03-30", the Eastern renderings
of the two UTC instants (midnight UTC falls on the previous Eastern
calendar day: 19:00 EST and 20:00 EDT respectively). -/
theorem c1_context_has_eastern_calendar_dates :
    (research_context "state of AI funding" "2024-01-01T00:00:00Z"
        "2024-03-31T00:00:00Z").map
      (fun ctx => strContains ctx "2023-12-31" && strContains ctx "2024-03-30")
      = some true := by decide

/-- C3: for every query and every pair of dates that render equally when
their instants coincide (true of all dates the program constructs, which
carry the Eastern offset of their own instant), the contextualized query
built by the fetcher is invariant under exchanging start and end, and the
swapped pair is ordered from the smaller to the larger instant. -/
theorem c3_fetch_context_swap_invariant (q : String) (sd ed : DT)
    (h : sd.instantUsec = ed.instantUsec → strftime_Ymd sd = strftime_Ymd ed) :
    fetch_context q sd ed = fetch_context q ed sd ∧
    (swapDates sd ed).1.instantUsec ≤ (swapDates sd ed).2.instantUsec := by
  unfold fetch_context swapDates
  by_cases h1 : ed.instantUsec < sd.instantUsec
  · have h2 : ¬ sd.instantUsec < ed.instantUsec := by omega
    simp only [if_pos h1, if_neg h2]
    exact ⟨trivial, by omega⟩
  · by_cases h2 : sd.instantUsec < ed.instantUsec
    · simp only [if_neg h1, if_pos h2]
      exact ⟨trivial, by omega⟩
    · have heq : sd.instantUsec = ed.instantUsec := by omega
      simp only [if_neg h1, if_neg h2]
      refine ⟨?_, by omega⟩
      rw [h heq]

/-- C3 witness: with start at Eastern midnight 2024-06-01 and end at
Eastern midnight 2024-01-01 (start after end), the contextualized query
equals the one for the exchanged pair, and the swapped pair runs from the
January instant to the June instant. -/
theorem c3_fetch_context_swap_invariant_witness :
    fetch_context "state of AI funding" dtJun2024 dtJan2024
      = fetch_context "state of AI funding" dtJan2024 dtJun2024 ∧
    (swapDates dtJun2024 dtJan2024).1.instantUsec
      ≤ (swapDates dtJun2024 dtJan2024).2.instantUsec :=
  c3_fetch_context_swap_invariant "state of AI funding" dtJun2024 dtJan2024
    (fun hEq => absurd hEq (by decide))

/-- C6: for every string input, `parse_date` fails exactly when
`fromisoformat` rejects the string with its trailing Z characters
stripped; and on success the result is the parsed wall clock read as UTC
(any parsed offset is discarded by the tzinfo replacement) converted with
`astimezone` to US Eastern. -/
theorem c6_parse_date_strips_z_utc_to_eastern (s : String) :
    (parse_date s = none ↔ fromisoformat (rstripZ s) = none) ∧
    ∀ p : NaiveDT, fromisoformat (rstripZ s) = some p →
      parse_date s = some (astimezoneNY
        ⟨p.year, p.month, p.day, p.hour, p.minute, p.second, p.usec, 0⟩) := by
  unfold parse_date
  cases h : fromisoformat (rstripZ s) with
  | none => simp
  | some p => simp

/-- C6 witness: the claim instantiated at "2024-01-01T00:00:00Z", whose
stripped form parses to the naive new-year midnight and converts to
19:00 EST on 2023-12-31. -/
theorem c6_parse_date_strips_z_utc_to_eastern_witness :
    parse_date "2024-01-01T00:00:00Z" = some ⟨2023, 12, 31, 19, 0, 0, 0, -300⟩ := by
  have h := (c6_parse_date_strips_z_utc_to_eastern "2024-01-01T00:00:00Z").2
    ⟨2024, 1, 1, 0, 0, 0, 0, none⟩ (by rfl)
  rw [h]
  rfl

/-- C8 counterexample: for the valid UTC timestamp string
2024-01-01T00:00:00Z, re-parsing the ISO serialization of the parsed
value does not yield the parsed value again, so parse-then-convert is not
idempotent under re-serialization. -/
theorem c8_reparse_not_idempotent :
    (parse_date "2024-01-01T00:00:00Z").bind (fun d => parse_date (isoformat d))
      ≠ parse_date "2024-01-01T00:00:00Z" := by decide

/-- C8 amended: parsing is deterministic (it is a pure function of the
string), but re-parsing the ISO serialization of the parsed value
re-reads the Eastern wall clock as UTC, shifting the denoted instant by
the Eastern UTC offset: for 2024-01-01T00:00:00Z the parse gives 19:00
EST on 2023-12-31, and the re-parse gives 14:00 EST, exactly the original
instant plus the offset of minus 300 minutes. -/
theorem c8_reparse_shifts_by_eastern_offset :
    parse_date "2024-01-01T00:00:00Z" = some ⟨2023, 12, 31, 19, 0, 0, 0, -300⟩ ∧
    parse_date (isoformat ⟨2023, 12, 31, 19, 0, 0, 0, -300⟩)
      = some ⟨2023, 12, 31, 14, 0, 0, 0, -300⟩ ∧
    (⟨2023, 12, 31, 14, 0, 0, 0, -300⟩ : DT).instantUsec
      = (⟨2023, 12, 31, 19, 0, 0, 0, -300⟩ : DT).instantUsec
          + (-300 * 60) * 1000000 := by
  refine ⟨by decide, by decide, by decide⟩

/-- C10: whenever `fetch_report` succeeds, the returned report is exactly
the collaborator write_report output for the contextualized query with
the date-range note appended, the note naming the swap-ordered dates
rendered as YYYY-MM-DD; since the note is nonempty the report is never
the collaborator text unmodified. -/
theorem c10_report_appends_date_note (c : Collaborator) (q rt : String)
    (srcs : List String) (sd ed : DT) (elapsed : Int) (r : String) (et : Int)
    (h : fetch_report c q rt srcs sd ed elapsed = .ok (r, et)) :
    ∃ w, c.write_report (fetch_context q sd ed) rt = .ok w ∧
      r = w ++ date_range_note (strftime_Ymd (swapDates sd ed).1)
                               (strftime_Ymd (swapDates sd ed).2) ∧
      r ≠ w := by
  simp only [fetch_report] at h
  cases hc : c.conduct_research (contextualized_query q
      (strftime_Ymd (swapDates sd ed).1) (strftime_Ymd (swapDates sd ed).2)) rt with
  | error e => rw [hc] at h; exact absurd h (by simp)
  | ok u =>
    rw [hc] at h
    cases hw : c.write_report (contextualized_query q
        (strftime_Ymd (swapDates sd ed).1) (strftime_Ymd (swapDates sd ed).2)) rt with
    | error e => rw [hw] at h; exact absurd h (by simp)
    | ok w =>
      rw [hw] at h
      simp only [Except.ok.injEq, Prod.mk.injEq] at h
      exact ⟨w, hw, h.1.symm, h.1.symm ▸ date_range_note_ne_empty w _ _⟩

/-- C10 witness: the claim instantiated at a succeeding collaborator and
the two concrete Eastern midnights, exhibiting the write_report output
and the appended note. -/
theorem c10_report_appends_date_note_witness :
    ∃ w, collab_ok.write_report
        (fetch_context "state of AI funding" dtJan2024 dtJun2024)
        "research_report" = .ok w ∧
      ("RESEARCH REPORT" ++ date_range_note
          (strftime_Ymd (swapDates dtJan2024 dtJun2024).1)
          (strftime_Ymd (swapDates dtJan2024 dtJun2024).2))
        = w ++ date_range_note
            (strftime_Ymd (swapDates dtJan2024 dtJun2024).1)
            (strftime_Ymd (swapDates dtJan2024 dtJun2024).2) ∧
      ("RESEARCH REPORT" ++ date_range_note
          (strftime_Ymd (swapDates dtJan2024 dtJun2024).1)
          (strftime_Ymd (swapDates dtJan2024 dtJun2024).2)) ≠ w :=
  c10_report_appends_date_note collab_ok "state of AI funding"
    "research_report" [] dtJan2024 dtJun2024 9
    ("RESEARCH REPORT" ++ date_range_note
      (strftime_Ymd (swapDates dtJan2024 dtJun2024).1)
      (strftime_Ymd (swapDates dtJan2024 dtJun2024).2)) 9 rfl

end TTG
